import Mathlib

set_option maxRecDepth 20000

/-!
# Verification of the gr-packet-protocols protocol core

A shallow embedding, in Lean 4, of the protocol machinery of the
`gr-packet-protocols` repository, together with theorems settling the
specification claims about it.

Byte values are modelled as `Nat` (with explicit masking where the C code
masks), byte buffers as `List Nat`, bit buffers as `List Bool`, and the
single-precision floating point inputs of the rate controller as `ℚ`
(every `float` value is an exact rational, the SNR thresholds in the
catalog are small whole numbers that are exactly representable, and all
operations involved are order comparisons, which coincide on the two
representations).
-/

namespace PacketProtocols

/-! ## GF(256) arithmetic (`include/gnuradio/packet_protocols/common.h`, class `GaloisField256`)

`initialize()` builds the log/antilog tables by iterating `sr = 1`,
`sr <<= 1`, reducing by the primitive polynomial 0x11D on bit-8 carry.
-/

namespace GaloisField256

/-- One step of the table-building loop of `GaloisField256::initialize`:
state is `(d_alpha_to, d_index_of, sr)`. -/
def initStep (st : List Nat × List Nat × Nat) (i : Nat) : List Nat × List Nat × Nat :=
  let a := st.1
  let idx := st.2.1
  let sr := st.2.2
  let a := a.set i sr
  let idx := idx.set sr i
  let sr := sr <<< 1
  let sr := if sr &&& 0x100 ≠ 0 then sr ^^^ 0x11D else sr
  (a, idx, sr &&& 0xFF)

/-- The tables built by `GaloisField256::initialize`: `d_index_of[0] = 0xFF`,
`d_alpha_to[255] = 0` (position 255 is never written by the loop, and the
buffer starts zeroed here), then 255 iterations starting from `sr = 1`. -/
def tables : List Nat × List Nat :=
  let a0 := List.replicate 256 0
  let i0 := (List.replicate 256 0).set 0 0xFF
  let r := (List.range 255).foldl initStep (a0, i0, 1)
  (r.1, r.2.1)

/-- `d_alpha_to` -/
def d_alpha_to : List Nat := tables.1

/-- `d_index_of` -/
def d_index_of : List Nat := tables.2

/-- `GaloisField256::multiply` -/
def multiply (a b : Nat) : Nat :=
  if a = 0 ∨ b = 0 then 0
  else
    let sum := d_index_of.getD a 0 + d_index_of.getD b 0
    let sum := if sum ≥ 255 then sum - 255 else sum
    d_alpha_to.getD sum 0

/-- `GaloisField256::divide`.  The C computes `int diff = index_of[a] -
index_of[b]` and adds 255 when negative; here the two branches of that signed
subtraction are written out on `Nat`. -/
def divide (a b : Nat) : Nat :=
  if a = 0 then 0
  else if b = 0 then 0
  else
    let ia := d_index_of.getD a 0
    let ib := d_index_of.getD b 0
    let diff := if ia < ib then ia + 255 - ib else ia - ib
    d_alpha_to.getD diff 0

/-- `GaloisField256::power` (the exponent is non-negative at every call site). -/
def power (a : Nat) (n : Nat) : Nat :=
  if a = 0 then 0
  else if n = 0 then 1
  else d_alpha_to.getD ((d_index_of.getD a 0 * n) % 255) 0

/-- `GaloisField256::add` -/
def add (a b : Nat) : Nat := a ^^^ b

end GaloisField256

/-! ## Reed–Solomon codec (`common.h`, classes `ReedSolomonEncoder` / `ReedSolomonDecoder`)

Both classes force `d_n = 255`, `d_t = (255 - k) / 2`.  The codec is
parametrised here by `k` alone.
-/

namespace ReedSolomonEncoder

open GaloisField256

/-- `ReedSolomonEncoder::build_generator_poly`: starts from `g(x) = 1` and
multiplies in `(x - alpha^i)` for `i = 1..2t` (shift up, then add
`alpha^i * temp` over indices `0..2t-1`). -/
def build_generator_poly (t : Nat) : List Nat :=
  let g0 := (List.replicate (2 * t + 1) 0).set 0 1
  (List.range (2 * t)).foldl
    (fun g i0 =>
      let i := i0 + 1
      let alpha_i := power 2 i
      let temp := g
      -- shift left (multiply by x): g[j] = g[j-1] for j = 2t..1, g[0] = 0
      let g := 0 :: g.take (2 * t)
      -- g[j] = add g[j] (multiply temp[j] alpha_i) for j = 0..2t-1
      (List.range (2 * t)).foldl
        (fun g j => g.set j (add (g.getD j 0) (multiply (temp.getD j 0) alpha_i)))
        g)
    g0

/-- `ReedSolomonEncoder::encode` for the (255, k) code: place the (truncated /
zero-padded) data in positions `0..k-1`, run the C polynomial-division loop
over `msg_poly`, and append `msg_poly[k..k+2t-1]` as parity. -/
def encode (k : Nat) (data : List Nat) : List Nat :=
  let t := (255 - k) / 2
  let g := build_generator_poly t
  let dataPart := (data.take k) ++ List.replicate (k - data.length) 0
  let msg0 := dataPart ++ List.replicate (2 * t) 0
  let msg :=
    (List.range k).foldl
      (fun msg i =>
        let coef := msg.getD i 0
        if coef ≠ 0 then
          (List.range (2 * t + 1)).foldl
            (fun msg j =>
              if g.getD j 0 ≠ 0 then
                msg.set (i + j) (add (msg.getD (i + j) 0) (multiply coef (g.getD j 0)))
              else msg)
            msg
        else msg)
      msg0
  dataPart ++ ((List.range (2 * t)).map (fun i => msg.getD (k + i) 0))

end ReedSolomonEncoder

namespace ReedSolomonDecoder

open GaloisField256

/-- The received buffer after `resize`: the C pads with zeros when shorter
than 255 and keeps the vector as-is otherwise. -/
def resized (received : List Nat) : List Nat :=
  received ++ List.replicate (255 - received.length) 0

/-- `ReedSolomonDecoder::calculate_syndromes`: `S_i = R(alpha^(i+1))` for
`i = 0..2t-1`, returning `(has_errors, syndromes)`. -/
def calculate_syndromes (k : Nat) (received : List Nat) : Bool × List Nat :=
  let t := (255 - k) / 2
  let syn :=
    (List.range (2 * t)).map (fun i =>
      let alpha_power := power 2 (i + 1)
      (List.range (min 255 received.length)).foldl
        (fun s j =>
          if received.getD j 0 ≠ 0 then
            add s (multiply (received.getD j 0) (power alpha_power j))
          else s)
        0)
  (syn.any (fun s => s ≠ 0), syn)

/-- One iteration (index `n`) of the Berlekamp–Massey loop of
`ReedSolomonDecoder::berlekamp_massey`; state is `(C, B, L, m, b)`. -/
def bmStep (t : Nat) (syn : List Nat) (st : List Nat × List Nat × Nat × Nat × Nat)
    (n : Nat) : List Nat × List Nat × Nat × Nat × Nat :=
  let C := st.1
  let B := st.2.1
  let L := st.2.2.1
  let m := st.2.2.2.1
  let b := st.2.2.2.2
  let d := (List.range L).foldl
    (fun d i => add d (multiply (C.getD (i + 1) 0) (syn.getD (n - (i + 1)) 0)))
    (syn.getD n 0)
  if d = 0 then
    (C, B, L, m + 1, b)
  else
    let T := C
    let inv_b := divide 1 b
    let C := (List.range (2 * t - m + 1)).foldl
      (fun C i =>
        if B.getD i 0 ≠ 0 then
          C.set (i + m) (add (C.getD (i + m) 0) (multiply d (multiply inv_b (B.getD i 0))))
        else C)
      C
    if 2 * L ≤ n then (C, T, n + 1 - L, 1, d)
    else (C, B, L, m + 1, b)

/-- `ReedSolomonDecoder::berlekamp_massey`, returning `(L, lambda)`. -/
def berlekamp_massey (k : Nat) (syn : List Nat) : Nat × List Nat :=
  let t := (255 - k) / 2
  let C0 := (List.replicate (2 * t + 1) 0).set 0 1
  let B0 := (List.replicate (2 * t + 1) 0).set 0 1
  let r := (List.range (2 * t)).foldl (bmStep t syn) (C0, B0, 0, 1, 1)
  (r.2.2.1, r.1)

/-- `ReedSolomonDecoder::chien_search`: error positions `255 - 1 - i` for
each `i` with `Lambda(alpha^-i) = 0`. -/
def chien_search (lambda : List Nat) (L : Nat) : List Nat :=
  (List.range 255).foldl
    (fun pos i =>
      let alpha_inv_i := power 2 (255 - i)
      let sum := (List.range (min L (lambda.length - 1))).foldl
        (fun sum j0 =>
          let j := j0 + 1
          if lambda.getD j 0 ≠ 0 then
            add sum (multiply (lambda.getD j 0) (power alpha_inv_i j))
          else sum)
        (lambda.getD 0 0)
      if sum = 0 then pos ++ [255 - 1 - i] else pos)
    []

/-- `ReedSolomonDecoder::forney_algorithm`, returning the error values for
the given error positions. -/
def forney_algorithm (k : Nat) (syn lambda : List Nat) (error_positions : List Nat) :
    List Nat :=
  let t := (255 - k) / 2
  let omega :=
    (List.range (2 * t)).map (fun i =>
      (List.range (min i (lambda.length - 1))).foldl
        (fun o j0 =>
          let j := j0 + 1
          add o (multiply (lambda.getD j 0) (syn.getD (i - j) 0)))
        (syn.getD i 0))
  error_positions.map (fun pos =>
    let alpha_inv := power 2 (255 - (255 - 1 - pos))
    let numerator := (List.range (2 * t)).foldl
      (fun nu j =>
        if omega.getD j 0 ≠ 0 then
          add nu (multiply (omega.getD j 0) (power alpha_inv j))
        else nu)
      0
    let denominator := (List.range (lambda.length - 1)).foldl
      (fun de j0 =>
        let j := j0 + 1
        if lambda.getD j 0 ≠ 0 ∧ j % 2 = 1 then
          add de (multiply (lambda.getD j 0) (power alpha_inv (j - 1)))
        else de)
      0
    if denominator ≠ 0 then divide numerator denominator else 0)

/-- `ReedSolomonDecoder::decode` for the (255, k) code.  Mirrors the four
early-return paths of the C: clean syndromes, `L > t`, Chien position-count
mismatch, and the correction path.  (`L < 0` cannot occur: `L` is a count.) -/
def decode (k : Nat) (data : List Nat) : List Nat :=
  let t := (255 - k) / 2
  let result := resized data
  let s := calculate_syndromes k result
  let has_errors := s.1
  let syn := s.2
  if ¬has_errors then result.take k
  else
    let bmr := berlekamp_massey k syn
    let L := bmr.1
    let lambda := bmr.2
    if L > t then result.take k
    else
      let error_positions := chien_search lambda L
      if error_positions.length ≠ L then result.take k
      else
        let error_values := forney_algorithm k syn lambda error_positions
        let corrected :=
          (error_positions.zip error_values).foldl
            (fun r pv =>
              if pv.1 < 255 then r.set pv.1 (add (r.getD pv.1 0) pv.2) else r)
            result
        corrected.take k

end ReedSolomonDecoder

/-! ## AX.25 FCS (`lib/ax25_protocol.c`) -/

/-- `calculate_fcs_internal`: 16-bit register initialised to 0xFFFF, each data
octet XORed in, eight iterations of right shift, XORing the polynomial
constant `AX25_FCS_POLY = 0x1021` when the low bit is set, final XOR 0xFFFF. -/
def calculate_fcs_internal (data : List Nat) : Nat :=
  (data.foldl
    (fun fcs b =>
      (List.range 8).foldl
        (fun fcs _ => if fcs &&& 0x0001 ≠ 0 then (fcs >>> 1) ^^^ 0x1021 else fcs >>> 1)
        (fcs ^^^ b))
    0xFFFF) ^^^ 0xFFFF

/-- `ax25_calculate_fcs` (the null-pointer guard has no counterpart for a
Lean list). -/
def ax25_calculate_fcs (data : List Nat) : Nat := calculate_fcs_internal data

/-- Modelled from the spec: the standard reflected CRC-16-CCITT reference
function that §4.C describes ("CRC-16-CCITT, polynomial 0x1021 reflected
(LSB-first per byte), initial register 0xFFFF, final XOR 0xFFFF").  In the
reflected (LSB-first) register organisation the polynomial 0x1021 appears
bit-reversed, as the constant 0x8408; this is the CRC-16/X-25 of the AX.25
standard, with check value 0x906E on the bytes of "123456789". -/
def crc16_ccitt_reflected (data : List Nat) : Nat :=
  (data.foldl
    (fun fcs b =>
      (List.range 8).foldl
        (fun fcs _ => if fcs &&& 0x0001 ≠ 0 then (fcs >>> 1) ^^^ 0x8408 else fcs >>> 1)
        (fcs ^^^ b))
    0xFFFF) ^^^ 0xFFFF

/-! ## AX.25 bit stuffing (`lib/ax25_protocol.c`, `ax25_bit_stuff` / `ax25_bit_unstuff`)

The C functions write single bits into a caller-supplied byte buffer
(`output[out_pos / 8]`, bit `out_pos % 8`) and report the number of bits
written through `*output_len`, which on entry carries the buffer capacity in
bits.  A zero-initialised output buffer is modelled as the list of bits
written, in order; `bitsToBytes` recovers the byte buffer. -/

/-- The bit sequence of a byte buffer, LSB-first per byte, as both C loops
traverse it. -/
def byteBits (input : List Nat) : List Bool :=
  input.flatMap (fun byte => (List.range 8).map (fun bit => byte >>> bit &&& 1 == 1))

/-- Packing of a written bit sequence back into the zero-initialised byte
buffer of the C functions. -/
def bitsToBytes (bits : List Bool) : List Nat :=
  (List.range ((bits.length + 7) / 8)).map (fun i =>
    (List.range 8).foldl
      (fun b j => b + (if bits.getD (8 * i + j) false then 2 ^ j else 0)) 0)

/-- `ax25_bit_stuff`: walk the input bits LSB-first, count consecutive ones,
and insert a 0-bit after five consecutive 1-bits.  `cap` is the capacity in
bits (`*output_len` on entry); `none` is the mid-insertion `-1` return, and
the loop conditions silently stop writing once `out_pos` reaches `cap`. -/
def ax25_bit_stuff (input : List Nat) (cap : Nat) : Option (List Bool) :=
  (input.foldl
    (fun st byte =>
      match st with
      | none => none
      | some s =>
        (List.range 8).foldl
          (fun st bit =>
            match st with
            | none => none
            | some s =>
              let ones := s.1
              let out := s.2
              if out.length < cap then
                let bit_val := byte >>> bit &&& 1 == 1
                let ones := if bit_val then ones + 1 else 0
                let out := out ++ [bit_val]
                if ones = 5 then
                  if out.length ≥ cap then none
                  else some (0, out ++ [false])
                else some (ones, out)
              else some (ones, out))
          (some s))
    (some ((0 : Nat), ([] : List Bool)))).map (fun s => s.2)

/-- The loop nest of `ax25_bit_unstuff`, entered inside the inner (bit) loop:
state is `(i, bit, byte, ones_count, out)`.  After five consecutive 1-bits the
C does `i++; if (i >= input_len) break; bit = -1;` — it advances the outer
index and restarts the inner loop at bit 0 *without reloading `byte`*, so the
stale byte is re-read from bit 0 (`byte` is only refreshed when the inner
loop exits normally).  The fuel argument exceeds the number of loop
iterations (each step advances `bit` or `i`). -/
def ax25_bit_unstuff_go (input : List Nat) (cap : Nat) :
    Nat → Nat → Nat → Nat → Nat → List Bool → List Bool
  | 0, _, _, _, _, out => out
  | fuel + 1, i, bit, byte, ones, out =>
    if bit < 8 ∧ out.length < cap then
      let bit_val := byte >>> bit &&& 1 == 1
      let ones2 := if bit_val then ones + 1 else 0
      let out2 := out ++ [bit_val]
      if ones2 = 5 then
        if i + 1 ≥ input.length then out2
        else ax25_bit_unstuff_go input cap fuel (i + 1) 0 byte 0 out2
      else ax25_bit_unstuff_go input cap fuel i (bit + 1) byte ones2 out2
    else
      if i + 1 < input.length ∧ out.length < cap then
        ax25_bit_unstuff_go input cap fuel (i + 1) 0 (input.getD (i + 1) 0) ones out
      else out

/-- `ax25_bit_unstuff` over a byte buffer, with `cap` the output capacity in
bits; returns the bits written. -/
def ax25_bit_unstuff (input : List Nat) (cap : Nat) : List Bool :=
  if 0 < input.length ∧ 0 < cap then
    ax25_bit_unstuff_go input cap (input.length * 20 + 20) 0 0 (input.getD 0 0) 0 []
  else []

/-! ## AX.25 frames (`lib/ax25_protocol.c`)

The header `ax25_protocol.h` that declares the frame / TNC record types and
the `AX25_*` constants is not part of the sources; the record fields below
are the ones `ax25_protocol.c` reads and writes, and the constants are
modelled from the spec. -/

/-- Modelled from the spec: `AX25_MAX_INFO` from the missing header
`ax25_protocol.h` (§3: `info_length ≤ 256`). -/
def AX25_MAX_INFO : Nat := 256

/-- Modelled from the spec: `AX25_MAX_ADDRS` from the missing header
(§4.D: "cap at 10 addresses"). -/
def AX25_MAX_ADDRS : Nat := 10

/-- Modelled from the spec: the `AX25_CTRL_DISC` control octet from the
missing header (standard AX.25 DISC U-frame, P=0). -/
def AX25_CTRL_DISC : Nat := 0x43

/-- Modelled from the spec: connection states from the missing header, §4.E;
numbered so that the `memset(conn, 0, ...)` in the C yields Disconnected. -/
def AX25_STATE_DISCONNECTED : Nat := 0

/-- Modelled from the spec: the Connecting state (§4.E). -/
def AX25_STATE_CONNECTING : Nat := 1

/-- Modelled from the spec: the Connected state (§4.E). -/
def AX25_STATE_CONNECTED : Nat := 2

/-- Modelled from the spec: the Disconnecting state (§4.E). -/
def AX25_STATE_DISCONNECTING : Nat := 3

/-- Modelled from the spec: `ax25_address_t` (fields as used by
`ax25_protocol.c`): six shifted callsign octets, the SSID octet, and the
command / has-been-repeated flags. -/
structure ax25_address_t where
  callsign : List Nat
  ssid : Nat
  command : Bool
  has_been_repeated : Bool
deriving DecidableEq

/-- Modelled from the spec: `ax25_frame_t` (fields as used by
`ax25_protocol.c`); the C array `addresses[AX25_MAX_ADDRS]` plus
`num_addresses` is represented by the list of its first `num_addresses`
entries, and `info[]` plus `info_length` by the info list. -/
structure ax25_frame_t where
  addresses : List ax25_address_t
  control : Nat
  pid : Nat
  info : List Nat
  fcs : Nat
  valid : Bool
deriving DecidableEq

/-- `ax25_encode_frame`.  `cap` is `*length` on entry (the output buffer
capacity); `none` is the `-1` return, `some` carries the emitted bytes
(whose count the C reports back through `*length`). -/
def ax25_encode_frame (frame : ax25_frame_t) (cap : Nat) : Option (List Nat) :=
  if ¬frame.valid ∨ frame.addresses.length < 2 then none
  else
    let n := frame.addresses.length
    let addrPart :=
      (List.range n).foldl
        (fun acc i =>
          match acc with
          | none => none
          | some data =>
            if data.length + 7 > cap then none
            else
              let a := frame.addresses.getD i ⟨[], 0, false, false⟩
              let ssid := if i = n - 1 then a.ssid ||| 0x01 else a.ssid
              some (data ++ a.callsign.take 6 ++ [ssid]))
        (some [])
    match addrPart with
    | none => none
    | some data =>
      if data.length ≥ cap then none
      else
        let data := data ++ [frame.control]
        let withPid :=
          if frame.control &&& 0x03 = 0x03 then
            if data.length ≥ cap then none else some (data ++ [frame.pid])
          else some data
        match withPid with
        | none => none
        | some data =>
          let withInfo :=
            if frame.info.length > 0 then
              if data.length + frame.info.length > cap then none
              else some (data ++ frame.info)
            else some data
          match withInfo with
          | none => none
          | some data =>
            let fcs := ax25_calculate_fcs data
            if data.length + 2 > cap then none
            else some (data ++ [fcs &&& 0xFF, (fcs >>> 8) &&& 0xFF])

/-- The address loop of `ax25_parse_frame`
(`while (pos < length - 2 && num_addresses < AX25_MAX_ADDRS)`); fuel is
`AX25_MAX_ADDRS` minus the number of addresses read so far.  Returns the
final `pos` and the addresses read.  Note the source breaks out of the loop
when the just-read SSID octet has bit 0 *clear*. -/
def parseAddrsGo (data : List Nat) (length : Nat) :
    Nat → Nat → List ax25_address_t → Nat × List ax25_address_t
  | 0, pos, acc => (pos, acc)
  | fuel + 1, pos, acc =>
    if pos < length - 2 then
      if pos + 7 > length then (pos, acc)
      else
        let ssid := data.getD (pos + 6) 0
        let a : ax25_address_t :=
          ⟨(data.drop pos).take 6, ssid, ssid &&& 0x80 ≠ 0, ssid &&& 0x01 ≠ 0⟩
        if ssid &&& 0x01 = 0 then (pos + 7, acc ++ [a])
        else parseAddrsGo data length fuel (pos + 7) (acc ++ [a])
    else (pos, acc)

/-- `ax25_parse_frame`; `none` is the `-1` return. -/
def ax25_parse_frame (data : List Nat) : Option ax25_frame_t :=
  let length := data.length
  if length < 14 then none
  else
    let pa := parseAddrsGo data length AX25_MAX_ADDRS 0 []
    let pos := pa.1
    let addrs := pa.2
    if pos ≥ length then none
    else
      let control := data.getD pos 0
      let pos := pos + 1
      -- PID octet consumed when the low two control bits are 11 ("UI frame"
      -- per the source comment, though the test also matches the other
      -- U-frame controls)
      let pidPos : Option (Nat × Nat) :=
        if control &&& 0x03 = 0x03 then
          if pos ≥ length then none else some (data.getD pos 0, pos + 1)
        else some (0, pos)
      match pidPos with
      | none => none
      | some (pid, pos) =>
        let infoLen := if pos + 2 < length then min (length - pos - 2) AX25_MAX_INFO else 0
        let info := (data.drop pos).take infoLen
        let pos := pos + infoLen
        let fcs :=
          if pos + 2 ≤ length then data.getD pos 0 ||| (data.getD (pos + 1) 0 <<< 8) else 0
        some ⟨addrs, control, pid, info, fcs, true⟩

/-! ## AX.25 connections (`lib/ax25_protocol.c`) -/

/-- Modelled from the spec: `ax25_connection_t` (fields as used by
`ax25_protocol.c`). -/
structure ax25_connection_t where
  state : Nat
  local_addr : ax25_address_t
  remote_addr : ax25_address_t
  send_seq : Nat
  recv_seq : Nat
  window_size : Nat
  timeout : Nat
  retry_count : Nat
deriving DecidableEq

/-- The all-zero connection record that `memset(conn, 0, sizeof(...))`
produces (state 0 is Disconnected). -/
def zero_connection : ax25_connection_t :=
  ⟨0, ⟨[0, 0, 0, 0, 0, 0], 0, false, false⟩, ⟨[0, 0, 0, 0, 0, 0], 0, false, false⟩, 0, 0, 0, 0, 0⟩

/-- Modelled from the spec: the fields of `ax25_config_t` that
`ax25_protocol.c` reads. -/
structure ax25_config_t where
  my_address : ax25_address_t
  window_size : Nat
  t1_timeout : Nat
deriving DecidableEq

/-- Modelled from the spec: `ax25_tnc_t` (fields as used by
`ax25_protocol.c`); the C array `connections[16]` is the list of its 16
entries. -/
structure ax25_tnc_t where
  config : ax25_config_t
  connections : List ax25_connection_t
  num_connections : Nat
  tx_frame : ax25_frame_t
  frame_ready : Bool
deriving DecidableEq

/-- `ax25_address_equal`: `memcmp` of the six callsign octets plus SSID
equality (the `command` / `has_been_repeated` flags are not compared). -/
def ax25_address_equal (a1 a2 : ax25_address_t) : Bool :=
  a1.callsign.take 6 = a2.callsign.take 6 ∧ a1.ssid = a2.ssid

/-- `find_connection`: the first of the 16 slots whose state is not
Disconnected and whose remote address matches. -/
def find_connection (tnc : ax25_tnc_t) (remote_addr : ax25_address_t) : Option Nat :=
  (List.range 16).find? (fun i =>
    let c := tnc.connections.getD i zero_connection
    c.state ≠ AX25_STATE_DISCONNECTED ∧ ax25_address_equal c.remote_addr remote_addr)

/-- `ax25_create_frame` (null-pointer guards dropped): destination in
`addresses[0]`, source in `addresses[1]`, `info_len > AX25_MAX_INFO` is the
`-1` return. -/
def ax25_create_frame (src dst : ax25_address_t) (control pid : Nat) (info : List Nat) :
    Option ax25_frame_t :=
  if info.length > AX25_MAX_INFO then none
  else some ⟨[dst, src], control, pid, info, 0, true⟩

/-- `ax25_disconnect`, returning the C result code paired with the updated
TNC.  The source sets the connection to Disconnecting, stores a DISC frame
in `tx_frame`, and then immediately clears the connection
(`memset(conn, 0, ...)`, i.e. Disconnected) and decrements
`num_connections`. -/
def ax25_disconnect (tnc : ax25_tnc_t) (remote_addr : ax25_address_t) : Int × ax25_tnc_t :=
  match find_connection tnc remote_addr with
  | none => (-1, tnc)
  | some i =>
    let conn := tnc.connections.getD i zero_connection
    if conn.state = AX25_STATE_DISCONNECTED then (0, tnc)
    else
      let tnc1 :=
        { tnc with connections :=
            tnc.connections.set i { conn with state := AX25_STATE_DISCONNECTING } }
      match ax25_create_frame conn.local_addr conn.remote_addr AX25_CTRL_DISC 0 [] with
      | none => (-1, tnc1)
      | some frame =>
        let tnc2 := { tnc1 with tx_frame := frame, frame_ready := true }
        let tnc3 :=
          { tnc2 with connections := tnc2.connections.set i zero_connection,
                      num_connections := tnc2.num_connections - 1 }
        (0, tnc3)

/-! ## Negotiation sub-protocol (`lib/negotiation_frame.cc`,
`lib/modulation_negotiation_impl.cc`)

Modulation modes travel on the wire as their underlying `uint8_t` value and
are modelled as `Nat` throughout. -/

/-- `KISS_CMD_NEG_RESP` (`common.h`). -/
def KISS_CMD_NEG_RESP : Nat := 0x11

/-- `decode_negotiation_request`: returns
`(station_id, proposed_mode, supported_modes)`, or `none` for the `false`
return. -/
def decode_negotiation_request (data : List Nat) :
    Option (List Nat × Nat × List Nat) :=
  if data.length < 3 then none
  else
    let id_len := data.getD 0 0
    if 1 + id_len + 2 > data.length then none
    else
      let station_id := (data.drop 1).take id_len
      let proposed_mode := data.getD (1 + id_len) 0
      let num_modes := data.getD (1 + id_len + 1) 0
      if 1 + id_len + 2 + num_modes > data.length then none
      else some (station_id, proposed_mode, (data.drop (1 + id_len + 2)).take num_modes)

/-- `encode_negotiation_response`: `id_len(1) | station_id | accepted(1) |
negotiated_mode(1)`; the mode octet is the C `static_cast<uint8_t>`. -/
def encode_negotiation_response (station_id : List Nat) (accepted : Bool)
    (negotiated_mode : Nat) : List Nat :=
  let id_len := min 255 station_id.length
  id_len :: (station_id.take id_len ++ [if accepted then 1 else 0, negotiated_mode % 256])

/-- `decode_negotiation_response`: returns
`(station_id, accepted, negotiated_mode)`. -/
def decode_negotiation_response (data : List Nat) :
    Option (List Nat × Bool × Nat) :=
  if data.length < 3 then none
  else
    let id_len := data.getD 0 0
    if 1 + id_len + 2 > data.length then none
    else
      let station_id := (data.drop 1).take id_len
      let accepted := data.getD (1 + id_len) 0 ≠ 0
      let negotiated_mode := data.getD (1 + id_len + 1) 0
      some (station_id, accepted, negotiated_mode)

/-- The mutable members of `modulation_negotiation_impl` that
`handle_negotiation_frame` touches; `d_negotiated_modes` (a `std::map`
keyed by station id) is an association list. -/
structure NegotiationState where
  d_station_id : List Nat
  d_supported_modes : List Nat
  d_negotiated_mode : Nat
  d_negotiated_modes : List (List Nat × Nat)
deriving DecidableEq

/-- `d_negotiated_modes[remote_id] = mode` (`std::map::operator[]`
assignment). -/
def mapStore (m : List (List Nat × Nat)) (key : List Nat) (val : Nat) :
    List (List Nat × Nat) :=
  (key, val) :: m.filter (fun kv => kv.1 ≠ key)

/-- The `KISS_CMD_NEG_REQ` case of
`modulation_negotiation_impl::handle_negotiation_frame`: decode the request;
if the proposed mode is locally supported, accept it; otherwise take the
first of the peer's modes that is locally supported (falling back to the
current `d_negotiated_mode`) and still reply `accepted = true`.  Returns the
new state and the list of `(command, payload)` KISS frames sent. -/
def handle_neg_req (st : NegotiationState) (data : List Nat) :
    NegotiationState × List (Nat × List Nat) :=
  match decode_negotiation_request data with
  | none => (st, [])
  | some (remote_id, proposed_mode, remote_supported_modes) =>
    if proposed_mode ∈ st.d_supported_modes then
      ({ st with d_negotiated_mode := proposed_mode,
                 d_negotiated_modes := mapStore st.d_negotiated_modes remote_id proposed_mode },
       [(KISS_CMD_NEG_RESP, encode_negotiation_response st.d_station_id true proposed_mode)])
    else
      let common_mode :=
        (remote_supported_modes.find? (fun m => m ∈ st.d_supported_modes)).getD
          st.d_negotiated_mode
      ({ st with d_negotiated_mode := common_mode,
                 d_negotiated_modes := mapStore st.d_negotiated_modes remote_id common_mode },
       [(KISS_CMD_NEG_RESP, encode_negotiation_response st.d_station_id true common_mode)])

/-! ## Adaptive rate control (`include/gnuradio/packet_protocols/adaptive_rate_control.h`,
`lib/adaptive_rate_control_impl.cc`)

`modulation_mode_t` is a C++ `enum class` over `int`; modes are modelled by
their numeric value.  SNR/BER/score inputs are `float`; they are modelled as
`ℚ`: every finite `float` is an exact rational, the comparisons below are
exact on both representations, and the SNR thresholds of the catalog are
whole numbers, which `float` represents exactly. -/

def MODE_2FSK : Nat := 0
def MODE_4FSK : Nat := 1
def MODE_8FSK : Nat := 2
def MODE_16FSK : Nat := 3
def MODE_BPSK : Nat := 4
def MODE_QPSK : Nat := 5
def MODE_8PSK : Nat := 6
def MODE_QAM16 : Nat := 7
def MODE_QAM64_6250 : Nat := 8
def MODE_QAM64_12500 : Nat := 9
def MODE_QAM256 : Nat := 10
def MODE_BPSK_12500 : Nat := 11
def MODE_QPSK_12500 : Nat := 12
def MODE_8PSK_12500 : Nat := 13
def MODE_QAM16_12500 : Nat := 14
def MODE_SOQPSK_1M : Nat := 15
def MODE_SOQPSK_5M : Nat := 16
def MODE_SOQPSK_10M : Nat := 17
def MODE_SOQPSK_20M : Nat := 18
def MODE_SOQPSK_40M : Nat := 19

/-- `rate_thresholds_t` (`adaptive_rate_control.h`). -/
structure rate_thresholds_t where
  snr_min_dB : ℚ
  snr_max_dB : ℚ
  ber_max : ℚ
  quality_min : ℚ
deriving DecidableEq

/-- The `d_mode_thresholds` map as filled in by the constructor of
`adaptive_rate_control_impl` (`none` for values outside the enum). -/
def d_mode_thresholds (mode : Nat) : Option rate_thresholds_t :=
  if mode = MODE_2FSK then some ⟨0, 15, 1/100, 3/10⟩
  else if mode = MODE_4FSK then some ⟨8, 20, 5/1000, 5/10⟩
  else if mode = MODE_8FSK then some ⟨12, 25, 1/1000, 7/10⟩
  else if mode = MODE_16FSK then some ⟨18, 30, 5/10000, 8/10⟩
  else if mode = MODE_BPSK then some ⟨6, 18, 1/100, 4/10⟩
  else if mode = MODE_QPSK then some ⟨10, 22, 5/1000, 6/10⟩
  else if mode = MODE_8PSK then some ⟨14, 26, 1/1000, 75/100⟩
  else if mode = MODE_QAM16 then some ⟨16, 28, 5/10000, 8/10⟩
  else if mode = MODE_QAM64_6250 then some ⟨20, 32, 1/10000, 85/100⟩
  else if mode = MODE_QAM64_12500 then some ⟨22, 35, 1/10000, 9/10⟩
  else if mode = MODE_QAM256 then some ⟨28, 40, 5/100000, 95/100⟩
  else if mode = MODE_BPSK_12500 then some ⟨8, 20, 5/1000, 5/10⟩
  else if mode = MODE_QPSK_12500 then some ⟨12, 24, 2/1000, 65/100⟩
  else if mode = MODE_8PSK_12500 then some ⟨16, 28, 8/10000, 78/100⟩
  else if mode = MODE_QAM16_12500 then some ⟨18, 30, 3/10000, 82/100⟩
  else if mode = MODE_SOQPSK_1M then some ⟨10, 25, 1/1000, 6/10⟩
  else if mode = MODE_SOQPSK_5M then some ⟨15, 30, 5/10000, 7/10⟩
  else if mode = MODE_SOQPSK_10M then some ⟨18, 33, 3/10000, 75/100⟩
  else if mode = MODE_SOQPSK_20M then some ⟨22, 36, 2/10000, 8/10⟩
  else if mode = MODE_SOQPSK_40M then some ⟨26, 40, 1/10000, 85/100⟩
  else none

/-- The `d_mode_data_rates` map as filled in by the constructor. -/
def d_mode_data_rates (mode : Nat) : Option Nat :=
  if mode = MODE_2FSK then some 1200
  else if mode = MODE_4FSK then some 2400
  else if mode = MODE_8FSK then some 3600
  else if mode = MODE_16FSK then some 4800
  else if mode = MODE_BPSK then some 1200
  else if mode = MODE_QPSK then some 2400
  else if mode = MODE_8PSK then some 3600
  else if mode = MODE_QAM16 then some 9600
  else if mode = MODE_QAM64_6250 then some 37500
  else if mode = MODE_QAM64_12500 then some 75000
  else if mode = MODE_QAM256 then some 100000
  else if mode = MODE_BPSK_12500 then some 12500
  else if mode = MODE_QPSK_12500 then some 25000
  else if mode = MODE_8PSK_12500 then some 37500
  else if mode = MODE_QAM16_12500 then some 50000
  else if mode = MODE_SOQPSK_1M then some 1000000
  else if mode = MODE_SOQPSK_5M then some 5000000
  else if mode = MODE_SOQPSK_10M then some 10000000
  else if mode = MODE_SOQPSK_20M then some 20000000
  else if mode = MODE_SOQPSK_40M then some 40000000
  else none

/-- `adaptive_rate_control_impl::get_thresholds`: map lookup with the
default `{0.0f, 15.0f, 0.01f, 0.3f}` for modes not in the map. -/
def get_thresholds (mode : Nat) : rate_thresholds_t :=
  (d_mode_thresholds mode).getD ⟨0, 15, 1/100, 3/10⟩

/-- The bit rate of a mode as `get_data_rate` reports it (default 1200 for
modes not in the map). -/
def mode_bit_rate (mode : Nat) : Nat := (d_mode_data_rates mode).getD 1200

/-- `adaptive_rate_control_impl::is_tier4_mode`. -/
def is_tier4_mode (mode : Nat) : Bool :=
  mode = MODE_SOQPSK_1M ∨ mode = MODE_SOQPSK_5M ∨ mode = MODE_SOQPSK_10M ∨
    mode = MODE_SOQPSK_20M ∨ mode = MODE_SOQPSK_40M

/-- The mode list of `recommend_mode`, "in order from highest to lowest
rate" as the source has it. -/
def recommend_mode_list : List Nat :=
  [ MODE_SOQPSK_40M, MODE_SOQPSK_20M, MODE_SOQPSK_10M, MODE_SOQPSK_5M,
   MODE_SOQPSK_1M, MODE_QAM256, MODE_QAM64_12500, MODE_QAM16_12500,
   MODE_8PSK_12500, MODE_QPSK_12500, MODE_BPSK_12500, MODE_QAM64_6250,
   MODE_QAM16, MODE_16FSK, MODE_8PSK, MODE_8FSK, MODE_QPSK, MODE_4FSK,
   MODE_BPSK, MODE_2FSK]

/-- One iteration of the loop of `recommend_mode`; the accumulator is
`(best_mode, best_rate)`. -/
def recommendStep (enable_tier4 : Bool) (snr_db ber : ℚ) (best : Nat × Nat) (mode : Nat) :
    Nat × Nat :=
  if is_tier4_mode mode ∧ ¬enable_tier4 then best
  else
    match d_mode_data_rates mode with
    | none => best
    | some rate =>
      let th := get_thresholds mode
      if th.snr_min_dB ≤ snr_db ∧ snr_db ≤ th.snr_max_dB ∧ ber ≤ th.ber_max then
        if rate > best.2 then (mode, rate) else best
      else best

/-- `adaptive_rate_control_impl::recommend_mode`, parametrised by the
`d_enable_tier4` member it reads; starts from `(MODE_2FSK, 0)`. -/
def recommend_mode (enable_tier4 : Bool) (snr_db ber : ℚ) : Nat :=
  (recommend_mode_list.foldl (recommendStep enable_tier4 snr_db ber) (MODE_2FSK, 0)).1

/-- The admission predicate of one `recommend_mode` loop iteration: the mode
passes the tier-4 gate, is in the data-rate map, and its thresholds admit
the `(snr, ber)` pair. -/
def modeAdmissible (enable_tier4 : Bool) (snr_db ber : ℚ) (m : Nat) : Prop :=
  (is_tier4_mode m = true → enable_tier4 = true) ∧
  (d_mode_data_rates m).isSome = true ∧
  (get_thresholds m).snr_min_dB ≤ snr_db ∧ snr_db ≤ (get_thresholds m).snr_max_dB ∧
  ber ≤ (get_thresholds m).ber_max

/-- The mutable members of `adaptive_rate_control_impl`. -/
structure RateControlState where
  d_current_mode : Nat
  d_adaptation_enabled : Bool
  d_hysteresis_db : ℚ
  d_enable_tier4 : Bool
  d_last_snr_db : ℚ
  d_last_mode : Nat
deriving DecidableEq

/-- The constructor of `adaptive_rate_control_impl`: a tier-4 initial mode
with tier-4 disabled falls back to `MODE_2FSK` (only `d_current_mode` is
corrected; `d_last_mode` keeps the argument). -/
def rate_control_make (initial_mode : Nat) (enable_adaptation : Bool)
    (hysteresis_db : ℚ) (enable_tier4 : Bool) : RateControlState :=
  let mode :=
    if is_tier4_mode initial_mode ∧ ¬enable_tier4 then MODE_2FSK else initial_mode
  ⟨mode, enable_adaptation, hysteresis_db, enable_tier4, 0, initial_mode⟩

/-- `adaptive_rate_control_impl::set_modulation_mode`: a tier-4 mode with
tier-4 disabled is silently ignored. -/
def set_modulation_mode (st : RateControlState) (mode : Nat) : RateControlState :=
  if is_tier4_mode mode ∧ ¬st.d_enable_tier4 then st
  else { st with d_current_mode := mode, d_last_mode := mode }

/-- `adaptive_rate_control_impl::set_adaptation_enabled`. -/
def set_adaptation_enabled (st : RateControlState) (enabled : Bool) : RateControlState :=
  { st with d_adaptation_enabled := enabled }

/-- `adaptive_rate_control_impl::set_tier4_enabled`: disabling tier-4 while
the current mode is tier-4 falls back to `MODE_2FSK`. -/
def set_tier4_enabled (st : RateControlState) (enabled : Bool) : RateControlState :=
  let st := { st with d_enable_tier4 := enabled }
  if ¬st.d_enable_tier4 ∧ is_tier4_mode st.d_current_mode then
    { st with d_current_mode := MODE_2FSK, d_last_mode := MODE_2FSK }
  else st

/-- `adaptive_rate_control_impl::update_quality`. -/
def update_quality (st : RateControlState) (snr_db ber quality_score : ℚ) :
    RateControlState :=
  if ¬st.d_adaptation_enabled then st
  else
    let st := { st with d_last_snr_db := snr_db }
    let th := get_thresholds st.d_current_mode
    if snr_db > th.snr_max_dB + st.d_hysteresis_db ∧ ber < th.ber_max ∧
        quality_score > th.quality_min then
      let recommended := recommend_mode st.d_enable_tier4 snr_db ber
      if recommended ≠ st.d_current_mode then
        { st with d_last_mode := st.d_current_mode, d_current_mode := recommended }
      else st
    else if snr_db < th.snr_min_dB - st.d_hysteresis_db ∨ ber > th.ber_max ∨
        quality_score < th.quality_min - 2/10 then
      let recommended := recommend_mode st.d_enable_tier4 snr_db ber
      if recommended ≠ st.d_current_mode then
        { st with d_last_mode := st.d_current_mode, d_current_mode := recommended }
      else st
    else st

/-- The public mutating operations of `adaptive_rate_control_impl`. -/
inductive RateControlOp where
  | setMode (mode : Nat)
  | setAdaptation (enabled : Bool)
  | setTier4 (enabled : Bool)
  | update (snr_db ber quality_score : ℚ)

/-- Application of one operation to the block state. -/
def applyRateControlOp (st : RateControlState) : RateControlOp → RateControlState
  | .setMode mode => set_modulation_mode st mode
  | .setAdaptation b => set_adaptation_enabled st b
  | .setTier4 b => set_tier4_enabled st b
  | .update snr ber q => update_quality st snr ber q

/-- Application of a sequence of operations. -/
def applyRateControlOps (st : RateControlState) (ops : List RateControlOp) :
    RateControlState :=
  ops.foldl applyRateControlOp st

/-! ## Concrete test vectors -/

/-- Data vector for the RS(255,247) round-trip check: 246 zero octets and a
final 1. -/
def rsDataExample : List Nat := List.replicate 246 0 ++ [1]

/-- A 255-octet received word with zero data part and five 1-octets at the
start of the parity region: its syndromes are nonzero and the decoder's
Chien search finds no root, an uncorrectable pattern for RS(255,247). -/
def rsFailExample : List Nat := List.replicate 247 0 ++ [1, 1, 1, 1, 1, 0, 0, 0]

/-- A two-address AX.25 frame (UI control 0x03, PID 0xF0, two info octets);
the first address has the end-of-address bit clear, the last has it set, as
§4.D prescribes for the wire format. -/
def frameExample : ax25_frame_t :=
  ⟨[⟨[0x82, 0x82, 0x82, 0x82, 0x82, 0x82], 0x60, false, false⟩,
    ⟨[0x84, 0x84, 0x84, 0x84, 0x84, 0x84], 0x61, false, false⟩],
   0x03, 0xF0, [0x48, 0x49], 0, true⟩

/-- A local station address. -/
def addrLocalExample : ax25_address_t := ⟨[0x9C, 0x9C, 0x9C, 0x9C, 0x9C, 0x9C], 0x61, false, false⟩

/-- A remote station address. -/
def addrRemoteExample : ax25_address_t := ⟨[0x9E, 0x9E, 0x9E, 0x9E, 0x9E, 0x9E], 0x63, false, false⟩

/-- A connection in the Connected state to `addrRemoteExample`. -/
def connExample : ax25_connection_t :=
  ⟨AX25_STATE_CONNECTED, addrLocalExample, addrRemoteExample, 0, 0, 4, 3000, 0⟩

/-- A TNC whose slot 0 holds `connExample`. -/
def tncExample : ax25_tnc_t :=
  ⟨⟨addrLocalExample, 4, 3000⟩, connExample :: List.replicate 15 zero_connection, 1,
   ⟨[], 0, 0, [], 0, false⟩, false⟩

/-- The mode the responder actually picks for a NEG_REQ (the amended claim
C2): the proposed mode when locally supported, otherwise the first of the
peer's modes that is locally supported, otherwise the current
`d_negotiated_mode`. -/
def negResponseMode (st : NegotiationState) (proposed : Nat) (remote_supported : List Nat) :
    Nat :=
  if proposed ∈ st.d_supported_modes then proposed
  else
    (remote_supported.find? (fun m => m ∈ st.d_supported_modes)).getD st.d_negotiated_mode

end PacketProtocols

namespace PacketProtocols

/-! ## Theorems -/

/-- Sanity check of the reference CRC: the CRC-16/X-25 check value on the
ASCII bytes of "123456789" is 0x906E. -/
theorem crc16_ccitt_reflected_check_value :
    crc16_ccitt_reflected [0x31, 0x32, 0x33, 0x34, 0x35, 0x36, 0x37, 0x38, 0x39] = 0x906E := by
  decide

/-- C3: the claim says `ax25_calculate_fcs` equals the standard reflected
CRC-16-CCITT (polynomial 0x1021 reflected, i.e. shift right and XOR 0x8408,
init 0xFFFF, final XOR 0xFFFF) on all inputs.  The code instead XORs the
un-reflected constant 0x1021 into the right-shifting register, a different
function: already on the single octet 0x00 the code yields 0xED84 while the
standard reflected CRC-16-CCITT yields 0xF078. -/
theorem C3_fcs_differs_from_reflected_ccitt :
    ax25_calculate_fcs [0x00] = 0xED84 ∧
    crc16_ccitt_reflected [0x00] = 0xF078 ∧
    ax25_calculate_fcs [0x00] ≠ crc16_ccitt_reflected [0x00] := by
  decide

/-- C4: the claim says `ax25_bit_unstuff ∘ ax25_bit_stuff` is the identity on
the bit sequence.  On input byte 0x1F (bits 1,1,1,1,1,0,0,0 LSB-first) the
stuffer emits the nine bits 1,1,1,1,1,0,0,0,0 — buffer bytes 0x1F 0x00 —
but the unstuffer, whose stuffed-bit skip advances the byte index while
re-reading the stale byte from bit 0, returns ten 1-bits instead of the
original eight bits. -/
theorem C4_unstuff_stuff_not_identity :
    ax25_bit_stuff [0x1F] 8000 =
      some [true, true, true, true, true, false, false, false, false] ∧
    bitsToBytes [true, true, true, true, true, false, false, false, false] = [0x1F, 0x00] ∧
    byteBits [0x1F] = [true, true, true, true, true, false, false, false] ∧
    ax25_bit_unstuff [0x1F, 0x00] 8000 = List.replicate 10 true ∧
    ax25_bit_unstuff [0x1F, 0x00] 8000 ≠ byteBits [0x1F] := by
  decide

/-- C5: the claim says parsing the output of `ax25_encode_frame` reproduces
the frame.  The encoder marks the last address with E-bit 1 (and leaves
E=0 on the first address of `frameExample`), but the parser stops reading
addresses when it sees an SSID octet with bit 0 *clear*, so it returns
after the first address: parsing the 20 encoded bytes of the two-address
`frameExample` yields a frame with a single address. -/
theorem C5_parse_encode_not_identity :
    frameExample.addresses.length = 2 ∧
    (ax25_encode_frame frameExample 1024).isSome = true ∧
    ((ax25_encode_frame frameExample 1024).getD []).length = 20 ∧
    (ax25_parse_frame ((ax25_encode_frame frameExample 1024).getD [])).map
        (fun p => p.addresses.length) = some 1 := by
  decide

end PacketProtocols

namespace PacketProtocols

/-! ### GF(256) division (claim C10) -/

/-- Every entry of the antilog table is a byte value. -/
theorem gf_alpha_to_bytes : ∀ x ∈ GaloisField256.d_alpha_to, x ≤ 255 := by decide!

/-- A `getD` lookup into the antilog table with a byte default is a byte. -/
theorem alpha_getD_le (n d : Nat) (hd : d ≤ 255) :
    GaloisField256.d_alpha_to.getD n d ≤ 255 := by
  rw [List.getD_eq_getElem?_getD]
  rcases h : GaloisField256.d_alpha_to[n]? with _ | x
  · simpa using hd
  · simpa using gf_alpha_to_bytes x (List.getElem?_mem h)

/-- C10: `GaloisField256::divide` is total and silently guarded: for byte
arguments the result is a byte, and division by zero (in either argument)
returns 0 rather than signalling an error. -/
theorem C10_divide_total (a b : Nat) (ha : a ≤ 255) (hb : b ≤ 255) :
    GaloisField256.divide a b ≤ 255 ∧ GaloisField256.divide a 0 = 0 ∧
      GaloisField256.divide 0 b = 0 := by
  refine ⟨?_, ?_, ?_⟩
  · simp only [GaloisField256.divide]
    split_ifs <;> first | decide | exact alpha_getD_le _ _ (by decide)
  · simp [GaloisField256.divide]
  · simp [GaloisField256.divide]

/-- Witness for C10 at `a = 7`, `b = 11`. -/
theorem C10_divide_total_witness :
    7 ≤ 255 ∧ 11 ≤ 255 ∧
      (GaloisField256.divide 7 11 ≤ 255 ∧ GaloisField256.divide 7 0 = 0 ∧
        GaloisField256.divide 0 11 = 0) :=
  ⟨by decide, by decide, C10_divide_total 7 11 (by decide) (by decide)⟩

/-! ### AX.25 disconnect (claim C8) -/

/-- Reading back the position just overwritten by `set`, with the written
value as default. -/
theorem getD_set_self_getD (l : List α) (i : Nat) (x : α) : (l.set i x).getD i x = x := by
  rw [List.getD_eq_getElem?_getD, List.getElem?_set]
  by_cases h : i < l.length <;> simp [h]

/-- `ax25_create_frame` with an empty info field always succeeds. -/
theorem create_frame_nil (src dst : ax25_address_t) (control pid : Nat) :
    ax25_create_frame src dst control pid [] =
      some ⟨[dst, src], control, pid, [], 0, true⟩ := by
  simp [ax25_create_frame, AX25_MAX_INFO]

/-- C8 (amended): `ax25_disconnect` on a Connected connection returns 0,
stores a DISC frame addressed from the connection's local address to its
remote address, raises `frame_ready` — and immediately clears the
connection slot to the all-zero (Disconnected) record, rather than leaving
it Disconnecting. -/
theorem C8_disconnect_immediate (tnc : ax25_tnc_t) (remote : ax25_address_t) (i : Nat)
    (hfind : find_connection tnc remote = some i)
    (hstate : (tnc.connections.getD i zero_connection).state = AX25_STATE_CONNECTED) :
    (ax25_disconnect tnc remote).1 = 0 ∧
      (ax25_disconnect tnc remote).2.frame_ready = true ∧
      (ax25_disconnect tnc remote).2.tx_frame.control = AX25_CTRL_DISC ∧
      (ax25_disconnect tnc remote).2.tx_frame.addresses =
        [(tnc.connections.getD i zero_connection).remote_addr,
         (tnc.connections.getD i zero_connection).local_addr] ∧
      (ax25_disconnect tnc remote).2.connections.getD i zero_connection =
        zero_connection ∧
      ((ax25_disconnect tnc remote).2.connections.getD i zero_connection).state =
        AX25_STATE_DISCONNECTED := by
  have hne : ¬(tnc.connections.getD i zero_connection).state = AX25_STATE_DISCONNECTED := by
    rw [hstate]; decide
  simp only [ax25_disconnect, hfind]
  rw [if_neg hne, create_frame_nil]
  exact ⟨rfl, rfl, rfl, rfl, getD_set_self_getD _ _ _, by rw [getD_set_self_getD]; rfl⟩

/-- Witness for C8 (amended) at `tncExample` / `addrRemoteExample`. -/
theorem C8_disconnect_immediate_witness :
    find_connection tncExample addrRemoteExample = some 0 ∧
      (tncExample.connections.getD 0 zero_connection).state = AX25_STATE_CONNECTED ∧
      ((ax25_disconnect tncExample addrRemoteExample).1 = 0 ∧
        (ax25_disconnect tncExample addrRemoteExample).2.frame_ready = true ∧
        (ax25_disconnect tncExample addrRemoteExample).2.tx_frame.control = AX25_CTRL_DISC ∧
        (ax25_disconnect tncExample addrRemoteExample).2.tx_frame.addresses =
          [(tncExample.connections.getD 0 zero_connection).remote_addr,
           (tncExample.connections.getD 0 zero_connection).local_addr] ∧
        (ax25_disconnect tncExample addrRemoteExample).2.connections.getD 0 zero_connection =
          zero_connection ∧
        ((ax25_disconnect tncExample addrRemoteExample).2.connections.getD 0
              zero_connection).state =
          AX25_STATE_DISCONNECTED) := by
  have h1 : find_connection tncExample addrRemoteExample = some 0 := by decide
  have h2 : (tncExample.connections.getD 0 zero_connection).state = AX25_STATE_CONNECTED := by
    decide
  exact ⟨h1, h2, C8_disconnect_immediate tncExample addrRemoteExample 0 h1 h2⟩

/-- C8 (counterexample): the claim says `disconnect` on a Connected
connection leaves the connection Disconnecting until a UA or final T1
expiry; on `tncExample` the connection is already Disconnected (the
all-zero record) when `ax25_disconnect` returns, and Disconnected is not
Disconnecting. -/
theorem C8_counterexample :
    ((ax25_disconnect tncExample addrRemoteExample).2.connections.getD 0
          zero_connection).state = AX25_STATE_DISCONNECTED ∧
      AX25_STATE_DISCONNECTED ≠ AX25_STATE_DISCONNECTING ∧
      (ax25_disconnect tncExample addrRemoteExample).2.frame_ready = true ∧
      (ax25_disconnect tncExample addrRemoteExample).2.tx_frame.control = AX25_CTRL_DISC := by
  decide

end PacketProtocols

namespace PacketProtocols

/-! ### Negotiation responder (claim C2) -/

/-- If a NEG_REQ decodes successfully from a byte-valued buffer, the proposed
mode and every peer-supported mode are byte values. -/
theorem decode_neg_req_byte_bounds (data rid : List Nat) (p : Nat) (rs : List Nat)
    (h : decode_negotiation_request data = some (rid, p, rs))
    (hb : ∀ x ∈ data, x ≤ 255) : p ≤ 255 ∧ ∀ m ∈ rs, m ≤ 255 := by
  simp only [decode_negotiation_request] at h
  split_ifs at h with h1 h2 h3
  simp only [Option.some.injEq, Prod.mk.injEq] at h
  obtain ⟨hrid, hp, hrs⟩ := h
  constructor
  · have hlt : 1 + data.getD 0 0 < data.length := by omega
    rw [← hp, List.getD_eq_getElem?_getD, List.getElem?_eq_getElem hlt]
    exact hb _ (List.getElem_mem hlt)
  · intro m hm
    rw [← hrs] at hm
    exact hb m (List.drop_subset _ _ (List.take_subset _ _ hm))

/-- `decode_negotiation_response` inverts `encode_negotiation_response` when
the station id fits in the length octet and the mode is a byte. -/
theorem neg_resp_roundtrip (sid : List Nat) (accepted : Bool) (mode : Nat)
    (hs : sid.length ≤ 255) (hm : mode ≤ 255) :
    decode_negotiation_response (encode_negotiation_response sid accepted mode) =
      some (sid, accepted, mode) := by
  have hmin : min 255 sid.length = sid.length := Nat.min_eq_right hs
  have hmod : mode % 256 = mode := Nat.mod_eq_of_lt (by omega)
  have key : ∀ a : Nat, decode_negotiation_response (sid.length :: (sid ++ [a, mode])) =
      some (sid, decide (a ≠ 0), mode) := by
    intro a
    have hidx : 1 + sid.length = sid.length + 1 := by omega
    have hidx2 : 1 + sid.length + 1 = sid.length + 1 + 1 := by omega
    have hA : (sid ++ [a, mode]).getD sid.length 0 = a := by
      rw [List.getD_append_right _ _ _ _ (le_refl _)]; simp
    have hM : (sid ++ [a, mode]).getD (sid.length + 1) 0 = mode := by
      rw [List.getD_append_right _ _ _ _ (by omega)]; simp
    simp only [decode_negotiation_response, List.getD_cons_zero, List.drop_succ_cons,
      List.drop_zero]
    rw [if_neg (by simp), if_neg (by simp; omega), List.take_left]
    simp only [hidx, hidx2, List.getD_cons_succ, hA, hM]
  simp only [encode_negotiation_response, hmin, hmod, List.take_length]
  rw [key]
  cases accepted <;> simp

/-- C2 (amended): on every successfully decoded NEG_REQ the responder sends
exactly one NEG_RESP whose `accepted` flag is `true` — regardless of the
peer\x27s supported-mode list — and whose mode is `negResponseMode`: the
proposed mode when locally supported (the peer\x27s list is not consulted),
otherwise the first peer-listed mode that is locally supported, otherwise
the current `d_negotiated_mode`; the local `d_negotiated_mode` is set to
the same mode. -/
theorem C2_neg_req_always_accepts (st : NegotiationState) (data rid : List Nat) (p : Nat)
    (rs : List Nat)
    (hdec : decode_negotiation_request data = some (rid, p, rs))
    (hid : st.d_station_id.length ≤ 255)
    (hneg : st.d_negotiated_mode ≤ 255)
    (hbytes : ∀ x ∈ data, x ≤ 255) :
    (handle_neg_req st data).2 =
      [(KISS_CMD_NEG_RESP,
        encode_negotiation_response st.d_station_id true (negResponseMode st p rs))] ∧
    decode_negotiation_response
        (encode_negotiation_response st.d_station_id true (negResponseMode st p rs)) =
      some (st.d_station_id, true, negResponseMode st p rs) ∧
    (handle_neg_req st data).1.d_negotiated_mode = negResponseMode st p rs := by
  have hbounds := decode_neg_req_byte_bounds data rid p rs hdec hbytes
  have hmode : negResponseMode st p rs ≤ 255 := by
    unfold negResponseMode
    split_ifs with hp
    · exact hbounds.1
    · rcases hfind : rs.find? (fun m => decide (m ∈ st.d_supported_modes)) with _ | m
      · simpa [hfind] using hneg
      · simpa [hfind] using hbounds.2 m (List.mem_of_find?_eq_some hfind)
  refine ⟨?_, neg_resp_roundtrip _ _ _ hid hmode, ?_⟩ <;>
  · simp only [handle_neg_req, hdec, negResponseMode]
    by_cases hp : p ∈ st.d_supported_modes <;> simp [hp]

/-- Witness for C2 (amended): local modes {4FSK, QPSK}, peer proposes QPSK
(mode 5) with supported {BPSK}; the responder accepts mode 5. -/
theorem C2_neg_req_always_accepts_witness :
    decode_negotiation_request [0, 5, 1, 4] = some ([], 5, [4]) ∧
    (⟨[], [1, 5], 2, []⟩ : NegotiationState).d_station_id.length ≤ 255 ∧
    (⟨[], [1, 5], 2, []⟩ : NegotiationState).d_negotiated_mode ≤ 255 ∧
    (∀ x ∈ [0, 5, 1, 4], x ≤ 255) ∧
    ((handle_neg_req ⟨[], [1, 5], 2, []⟩ [0, 5, 1, 4]).2 =
      [(KISS_CMD_NEG_RESP,
        encode_negotiation_response [] true (negResponseMode ⟨[], [1, 5], 2, []⟩ 5 [4]))] ∧
      decode_negotiation_response
          (encode_negotiation_response [] true (negResponseMode ⟨[], [1, 5], 2, []⟩ 5 [4])) =
        some ([], true, negResponseMode ⟨[], [1, 5], 2, []⟩ 5 [4]) ∧
      (handle_neg_req ⟨[], [1, 5], 2, []⟩ [0, 5, 1, 4]).1.d_negotiated_mode =
        negResponseMode ⟨[], [1, 5], 2, []⟩ 5 [4]) := by
  have h1 : decode_negotiation_request [0, 5, 1, 4] = some ([], 5, [4]) := by decide
  have h4 : ∀ x ∈ [0, 5, 1, 4], x ≤ 255 := by decide
  exact ⟨h1, by decide, by decide, h4,
    C2_neg_req_always_accepts ⟨[], [1, 5], 2, []⟩ [0, 5, 1, 4] [] 5 [4] h1 (by decide)
      (by decide) h4⟩

/-- C2 (counterexample): the claim says the responder accepts the proposed
mode exactly when it lies in the intersection of the peer\x27s and the local
supported modes, and replies `accepted = false` when that intersection is
empty.  With local modes {4FSK} and a NEG_REQ proposing 4FSK with an
*empty* peer list (bytes `[0, 1, 0]`), the intersection is empty, yet the
code replies `accepted = true` with the proposed mode (payload
`[0, 1, 1]`: empty id, accepted octet 1, mode octet 1). -/
theorem C2_counterexample :
    decode_negotiation_request [0, 1, 0] = some ([], 1, []) ∧
    (handle_neg_req ⟨[], [1], 1, []⟩ [0, 1, 0]).2 =
      [(KISS_CMD_NEG_RESP, [0, 1, 1])] := by
  decide

end PacketProtocols

namespace PacketProtocols

/-! ### Reed-Solomon round trip (claim C1) -/

/-- C1: the claim says `decode(encode(d)) = d` for every supported (255, k)
and every data vector of exactly k octets.  For the supported RS(255,247)
code and the 247-octet vector `rsDataExample` (246 zeros then 1), the
decoder reports a spurious single "error" at position 8 — the encoder
computes parity in the data-high / parity-low index convention while the
syndrome evaluation treats index 0 as the constant term, so the encoded
word is not a codeword of the syndrome check — and returns 36 in data
octet 8 instead of the original 0. -/
theorem C1_rs_roundtrip_fails :
    ReedSolomonDecoder.decode 247 (ReedSolomonEncoder.encode 247 rsDataExample) ≠
      rsDataExample ∧
    (ReedSolomonDecoder.decode 247 (ReedSolomonEncoder.encode 247 rsDataExample)).getD 8 0
      = 36 ∧
    rsDataExample.getD 8 0 = 0 := by
  decide!

/-! ### Reed-Solomon failure policy (claim C7) -/

/-- C7 (amended): whenever the syndromes are nonzero and Berlekamp-Massey
yields `L > t`, or the Chien root count differs from `L`, `decode` returns
the first k octets of the (zero-padded) received buffer unmodified.  No
uncorrectable indication accompanies them: the return value is the only
output of `decode` (see `C7_counterexample` for its coincidence with a
clean decode). -/
theorem C7_failure_returns_received_data (k : Nat) (received : List Nat)
    (herr : (ReedSolomonDecoder.calculate_syndromes k
        (ReedSolomonDecoder.resized received)).1 = true)
    (hfail :
      (ReedSolomonDecoder.berlekamp_massey k
          (ReedSolomonDecoder.calculate_syndromes k
            (ReedSolomonDecoder.resized received)).2).1 > (255 - k) / 2 ∨
        (ReedSolomonDecoder.chien_search
            (ReedSolomonDecoder.berlekamp_massey k
              (ReedSolomonDecoder.calculate_syndromes k
                (ReedSolomonDecoder.resized received)).2).2
            (ReedSolomonDecoder.berlekamp_massey k
              (ReedSolomonDecoder.calculate_syndromes k
                (ReedSolomonDecoder.resized received)).2).1).length ≠
          (ReedSolomonDecoder.berlekamp_massey k
            (ReedSolomonDecoder.calculate_syndromes k
              (ReedSolomonDecoder.resized received)).2).1) :
    ReedSolomonDecoder.decode k received =
      (ReedSolomonDecoder.resized received).take k := by
  simp only [ReedSolomonDecoder.decode]
  rw [herr]
  split_ifs <;> try rfl
  all_goals rcases hfail with h | h <;> simp_all

set_option maxHeartbeats 4000000 in
/-- Witness for C7 (amended) at the uncorrectable word `rsFailExample`
(RS(255,247), syndromes nonzero, Chien root count 0 differs from L = 4). -/
theorem C7_failure_returns_received_data_witness :
    (ReedSolomonDecoder.calculate_syndromes 247
        (ReedSolomonDecoder.resized rsFailExample)).1 = true ∧
    ((ReedSolomonDecoder.berlekamp_massey 247
          (ReedSolomonDecoder.calculate_syndromes 247
            (ReedSolomonDecoder.resized rsFailExample)).2).1 > (255 - 247) / 2 ∨
      (ReedSolomonDecoder.chien_search
          (ReedSolomonDecoder.berlekamp_massey 247
            (ReedSolomonDecoder.calculate_syndromes 247
              (ReedSolomonDecoder.resized rsFailExample)).2).2
          (ReedSolomonDecoder.berlekamp_massey 247
            (ReedSolomonDecoder.calculate_syndromes 247
              (ReedSolomonDecoder.resized rsFailExample)).2).1).length ≠
        (ReedSolomonDecoder.berlekamp_massey 247
          (ReedSolomonDecoder.calculate_syndromes 247
            (ReedSolomonDecoder.resized rsFailExample)).2).1) ∧
    ReedSolomonDecoder.decode 247 rsFailExample =
      (ReedSolomonDecoder.resized rsFailExample).take 247 := by
  have hE : (ReedSolomonDecoder.calculate_syndromes 247
      (ReedSolomonDecoder.resized rsFailExample)).1 = true := by decide!
  have hF : (ReedSolomonDecoder.chien_search
      (ReedSolomonDecoder.berlekamp_massey 247
        (ReedSolomonDecoder.calculate_syndromes 247
          (ReedSolomonDecoder.resized rsFailExample)).2).2
      (ReedSolomonDecoder.berlekamp_massey 247
        (ReedSolomonDecoder.calculate_syndromes 247
          (ReedSolomonDecoder.resized rsFailExample)).2).1).length ≠
      (ReedSolomonDecoder.berlekamp_massey 247
        (ReedSolomonDecoder.calculate_syndromes 247
          (ReedSolomonDecoder.resized rsFailExample)).2).1 := by decide!
  exact ⟨hE, Or.inr hF,
    C7_failure_returns_received_data 247 rsFailExample hE (Or.inr hF)⟩

set_option maxHeartbeats 4000000 in
/-- C7 (counterexample): the claim also says the decoder "signals an
uncorrectable-FEC error to the caller".  `decode` returns only the data
octets; on the uncorrectable word `rsFailExample` its output coincides
exactly with the output on the all-zero word, whose syndromes are clean —
the caller receives no indication distinguishing a decoding failure from a
successful decode. -/
theorem C7_counterexample :
    ReedSolomonDecoder.decode 247 rsFailExample =
      ReedSolomonDecoder.decode 247 (List.replicate 255 0) ∧
    (ReedSolomonDecoder.calculate_syndromes 247
        (ReedSolomonDecoder.resized (List.replicate 255 0))).1 = false ∧
    (ReedSolomonDecoder.calculate_syndromes 247
        (ReedSolomonDecoder.resized rsFailExample)).1 = true := by
  refine ⟨by decide!, by decide!, by decide!⟩

end PacketProtocols

namespace PacketProtocols

/-! ### Tier-4 exclusion (claim C9) -/

/-- One `recommend_mode` loop step with tier-4 disabled never adopts a
tier-4 mode. -/
theorem recommendStep_no_tier4 (snr ber : ℚ) (best : Nat × Nat) (a : Nat)
    (h : is_tier4_mode best.1 = false) :
    is_tier4_mode (recommendStep false snr ber best a).1 = false := by
  unfold recommendStep
  by_cases ht : is_tier4_mode a = true
  · simp [ht, h]
  · simp only [Bool.not_eq_true] at ht
    have hC : ¬(is_tier4_mode a = true ∧ ¬((false : Bool) = true)) := by simp [ht]
    rw [if_neg hC]
    rcases hr : d_mode_data_rates a with _ | rate
    · simp [hr, h]
    · simp only [hr]
      split_ifs <;> simp [h, ht]

/-- The `recommend_mode` fold with tier-4 disabled, started from a
non-tier-4 accumulator, ends on a non-tier-4 mode. -/
theorem recommend_fold_no_tier4 (snr ber : ℚ) (l : List Nat) (best : Nat × Nat)
    (h : is_tier4_mode best.1 = false) :
    is_tier4_mode ((l.foldl (recommendStep false snr ber) best)).1 = false := by
  induction l generalizing best with
  | nil => exact h
  | cons a l ih => exact ih _ (recommendStep_no_tier4 snr ber best a h)

/-- `recommend_mode` with tier-4 disabled never returns a tier-4 mode. -/
theorem recommend_mode_no_tier4 (snr ber : ℚ) :
    is_tier4_mode (recommend_mode false snr ber) = false := by
  unfold recommend_mode
  exact recommend_fold_no_tier4 snr ber _ _ (by decide)

/-- Every public operation preserves "tier-4 disabled implies the current
mode is not tier-4". -/
theorem rate_op_preserves_no_tier4 (st : RateControlState) (op : RateControlOp)
    (h : st.d_enable_tier4 = false → is_tier4_mode st.d_current_mode = false) :
    (applyRateControlOp st op).d_enable_tier4 = false →
      is_tier4_mode (applyRateControlOp st op).d_current_mode = false := by
  cases op with
  | setMode m =>
    simp only [applyRateControlOp, set_modulation_mode]
    split_ifs with hc
    · exact h
    · intro hflag
      have hflag2 : st.d_enable_tier4 = false := hflag
      show is_tier4_mode m = false
      rcases Bool.eq_false_or_eq_true (is_tier4_mode m) with hm | hm
      · exact absurd ⟨hm, by simp [hflag2]⟩ hc
      · exact hm
  | setAdaptation b => exact h
  | setTier4 b =>
    simp only [applyRateControlOp, set_tier4_enabled]
    split_ifs with hc
    · intro hflag
      show is_tier4_mode MODE_2FSK = false
      decide
    · intro hflag
      have hb : b = false := hflag
      show is_tier4_mode st.d_current_mode = false
      rcases Bool.eq_false_or_eq_true (is_tier4_mode st.d_current_mode) with hm | hm
      · exact absurd ⟨by simp [hb], hm⟩ hc
      · exact hm
  | update snr ber q =>
    simp only [applyRateControlOp, update_quality]
    split_ifs <;> intro hflag <;>
      first
        | exact h hflag
        | (have hflag2 : st.d_enable_tier4 = false := hflag
           show is_tier4_mode (recommend_mode st.d_enable_tier4 snr ber) = false
           rw [hflag2]
           exact recommend_mode_no_tier4 snr ber)

/-- A sequence of operations preserves the tier-4 invariant. -/
theorem rate_ops_preserve_no_tier4 (ops : List RateControlOp) (st : RateControlState)
    (h : st.d_enable_tier4 = false → is_tier4_mode st.d_current_mode = false) :
    (applyRateControlOps st ops).d_enable_tier4 = false →
      is_tier4_mode (applyRateControlOps st ops).d_current_mode = false := by
  induction ops generalizing st with
  | nil => exact h
  | cons op ops ih => exact ih (applyRateControlOp st op) (rate_op_preserves_no_tier4 st op h)

/-- The constructor establishes the tier-4 invariant. -/
theorem rate_control_make_no_tier4 (im : Nat) (ea : Bool) (hy : ℚ) (et : Bool) :
    (rate_control_make im ea hy et).d_enable_tier4 = false →
      is_tier4_mode (rate_control_make im ea hy et).d_current_mode = false := by
  simp only [rate_control_make]
  split_ifs with hc
  · intro hflag
    show is_tier4_mode MODE_2FSK = false
    decide
  · intro hflag
    have het : et = false := hflag
    show is_tier4_mode im = false
    rcases Bool.eq_false_or_eq_true (is_tier4_mode im) with hm | hm
    · exact absurd ⟨hm, by simp [het]⟩ hc
    · exact hm

/-- C9: with tier-4 support disabled the current mode is never a tier-4
mode: `set_modulation_mode` with a tier-4 argument leaves the whole state
unchanged; `recommend_mode` never returns a tier-4 mode; disabling tier-4
while in a tier-4 mode falls back to `MODE_2FSK`; and along every sequence
of operations from any constructor state, whenever `d_enable_tier4` is
false the current mode is not tier-4. -/
theorem C9_tier4_never_active :
    (∀ (st : RateControlState) (mode : Nat), is_tier4_mode mode = true →
        st.d_enable_tier4 = false → set_modulation_mode st mode = st) ∧
    (∀ snr ber : ℚ, is_tier4_mode (recommend_mode false snr ber) = false) ∧
    (∀ st : RateControlState, is_tier4_mode st.d_current_mode = true →
        (set_tier4_enabled st false).d_current_mode = MODE_2FSK) ∧
    (∀ (im : Nat) (ea : Bool) (hy : ℚ) (et : Bool) (ops : List RateControlOp),
        (applyRateControlOps (rate_control_make im ea hy et) ops).d_enable_tier4 = false →
        is_tier4_mode
            (applyRateControlOps (rate_control_make im ea hy et) ops).d_current_mode =
          false) := by
  refine ⟨?_, recommend_mode_no_tier4, ?_, ?_⟩
  · intro st mode hmode hflag
    simp [set_modulation_mode, hmode, hflag]
  · intro st hmode
    simp [set_tier4_enabled, hmode]
  · intro im ea hy et ops
    exact rate_ops_preserve_no_tier4 ops _ (rate_control_make_no_tier4 im ea hy et)

/-- Witness for C9: concrete instances of each conjunct (initial mode
SOQPSK-1M with tier-4 off falls back; `set_modulation_mode` to SOQPSK-5M is
ignored; an operation sequence ending with tier-4 off leaves a
non-tier-4 mode). -/
theorem C9_tier4_never_active_witness :
    is_tier4_mode MODE_SOQPSK_5M = true ∧
    (⟨MODE_2FSK, false, 2, false, 0, 0⟩ : RateControlState).d_enable_tier4 = false ∧
    set_modulation_mode ⟨MODE_2FSK, false, 2, false, 0, 0⟩ MODE_SOQPSK_5M =
      ⟨MODE_2FSK, false, 2, false, 0, 0⟩ ∧
    is_tier4_mode (recommend_mode false 30 0) = false ∧
    is_tier4_mode
        (⟨MODE_SOQPSK_40M, false, 2, true, 0, 0⟩ : RateControlState).d_current_mode = true ∧
    (set_tier4_enabled ⟨MODE_SOQPSK_40M, false, 2, true, 0, 0⟩ false).d_current_mode =
      MODE_2FSK ∧
    ((applyRateControlOps (rate_control_make MODE_SOQPSK_1M true 2 false)
          [RateControlOp.setMode MODE_SOQPSK_10M]).d_enable_tier4 = false →
      is_tier4_mode
          (applyRateControlOps (rate_control_make MODE_SOQPSK_1M true 2 false)
            [RateControlOp.setMode MODE_SOQPSK_10M]).d_current_mode =
        false) := by
  have h := C9_tier4_never_active
  exact ⟨by decide, by decide,
    h.1 ⟨MODE_2FSK, false, 2, false, 0, 0⟩ MODE_SOQPSK_5M (by decide) (by decide),
    h.2.1 30 0, by decide,
    h.2.2.1 ⟨MODE_SOQPSK_40M, false, 2, true, 0, 0⟩ (by decide),
    h.2.2.2 MODE_SOQPSK_1M true 2 false [RateControlOp.setMode MODE_SOQPSK_10M]⟩

end PacketProtocols

namespace PacketProtocols

/-! ### Rate recommendation monotonicity (claim C6) -/

/-- One `recommend_mode` loop step never decreases the best rate. -/
theorem recommendStep_rate_mono (e : Bool) (s b : ℚ) (best : Nat × Nat) (m : Nat) :
    best.2 ≤ (recommendStep e s b best m).2 := by
  unfold recommendStep
  rcases hr : d_mode_data_rates m with _ | rate
  · split_ifs <;> simp [hr]
  · simp only [hr]
    split_ifs <;> simp <;> omega

/-- The `recommend_mode` fold never decreases the best rate. -/
theorem recommendFold_rate_mono (e : Bool) (s b : ℚ) (l : List Nat) (best : Nat × Nat) :
    best.2 ≤ (l.foldl (recommendStep e s b) best).2 := by
  induction l generalizing best with
  | nil => exact le_rfl
  | cons a l ih => exact le_trans (recommendStep_rate_mono e s b best a) (ih _)

/-- An admissible mode forces the step result to at least its rate. -/
theorem recommendStep_admissible_le (e : Bool) (s b : ℚ) (best : Nat × Nat) (m : Nat)
    (hadm : modeAdmissible e s b m) :
    (d_mode_data_rates m).getD 0 ≤ (recommendStep e s b best m).2 := by
  obtain ⟨h4, hsome, h1, h2, h3⟩ := hadm
  unfold recommendStep
  have hC : ¬(is_tier4_mode m = true ∧ ¬(e = true)) := fun hx => hx.2 (h4 hx.1)
  rw [if_neg hC]
  rcases hr : d_mode_data_rates m with _ | rate
  · rw [hr] at hsome; simp at hsome
  · simp only [hr]
    rw [if_pos ⟨h1, h2, h3⟩]
    split_ifs with hgt
    · simp
    · simp; omega

/-- The fold result rate dominates the rate of every admissible mode in the
list. -/
theorem recommendFold_achieves (e : Bool) (s b : ℚ) (l : List Nat) (best : Nat × Nat)
    (m : Nat) (hm : m ∈ l) (hadm : modeAdmissible e s b m) :
    (d_mode_data_rates m).getD 0 ≤ (l.foldl (recommendStep e s b) best).2 := by
  induction l generalizing best with
  | nil => cases hm
  | cons a l ih =>
    rcases List.mem_cons.mp hm with rfl | hm2
    · exact le_trans (recommendStep_admissible_le e s b best m hadm)
        (recommendFold_rate_mono e s b l _)
    · exact ih _ hm2

/-- One step either keeps the accumulator or adopts the scanned mode, and
it adopts only admissible modes. -/
theorem recommendStep_result (e : Bool) (s b : ℚ) (best : Nat × Nat) (m : Nat) :
    recommendStep e s b best m = best ∨
      (recommendStep e s b best m = (m, (d_mode_data_rates m).getD 0) ∧
        modeAdmissible e s b m) := by
  unfold recommendStep
  by_cases h1 : is_tier4_mode m = true ∧ ¬(e = true)
  · rw [if_pos h1]; exact Or.inl rfl
  · rw [if_neg h1]
    rcases hr : d_mode_data_rates m with _ | rate
    · exact Or.inl rfl
    · simp only [hr]
      by_cases h2 : (get_thresholds m).snr_min_dB ≤ s ∧ s ≤ (get_thresholds m).snr_max_dB ∧
          b ≤ (get_thresholds m).ber_max
      · rw [if_pos h2]
        by_cases h3 : rate > best.2
        · rw [if_pos h3]
          refine Or.inr ⟨by simp [hr], ?_, by simp [hr], h2.1, h2.2.1, h2.2.2⟩
          intro hm4
          by_contra he
          exact h1 ⟨hm4, by simpa using he⟩
        · rw [if_neg h3]; exact Or.inl rfl
      · rw [if_neg h2]; exact Or.inl rfl

/-- The fold either returns its start or an admissible mode of the list
paired with that mode\x27s rate. -/
theorem recommendFold_result (e : Bool) (s b : ℚ) (l : List Nat) (best : Nat × Nat) :
    l.foldl (recommendStep e s b) best = best ∨
      ((l.foldl (recommendStep e s b) best).1 ∈ l ∧
        modeAdmissible e s b (l.foldl (recommendStep e s b) best).1 ∧
        (l.foldl (recommendStep e s b) best).2 =
          (d_mode_data_rates (l.foldl (recommendStep e s b) best).1).getD 0) := by
  induction l generalizing best with
  | nil => exact Or.inl rfl
  | cons a l ih =>
    rw [List.foldl_cons]
    rcases recommendStep_result e s b best a with hstep | ⟨hstep, hadm⟩
    · rw [hstep]
      rcases ih best with h | ⟨hm, ha, hrr⟩
      · exact Or.inl h
      · exact Or.inr ⟨List.mem_cons_of_mem a hm, ha, hrr⟩
    · rw [hstep]
      rcases ih (a, (d_mode_data_rates a).getD 0) with h | ⟨hm, ha, hrr⟩
      · rw [h]
        exact Or.inr ⟨List.mem_cons_self a l, hadm, by simp⟩
      · exact Or.inr ⟨List.mem_cons_of_mem a hm, ha, hrr⟩

/-- Catalog facts: every listed mode has a mapped rate of at least 1200 bps,
and `mode_bit_rate` agrees with the mapped rate. -/
theorem catalog_facts :
    ∀ m ∈ recommend_mode_list, 1200 ≤ mode_bit_rate m ∧
      (d_mode_data_rates m).isSome = true ∧
      mode_bit_rate m = (d_mode_data_rates m).getD 0 := by decide

/-- Every listed mode has nonnegative BER ceiling and a mapped data rate. -/
theorem mode_pack : ∀ m ∈ recommend_mode_list,
    (0:ℚ) ≤ (get_thresholds m).ber_max ∧ (d_mode_data_rates m).isSome = true := by
  decide!

/-- Packaging helper: a listed mode whose SNR window contains `s` is
admissible at `(s, 0)`. -/
theorem cover_of (e : Bool) (s : ℚ) (m2 : Nat)
    (hmem : m2 ∈ recommend_mode_list)
    (ht4 : is_tier4_mode m2 = true → e = true)
    (hpack : (0:ℚ) ≤ (get_thresholds m2).ber_max ∧ (d_mode_data_rates m2).isSome = true)
    (h1 : (get_thresholds m2).snr_min_dB ≤ s) (h2 : s ≤ (get_thresholds m2).snr_max_dB) :
    m2 ∈ recommend_mode_list ∧ modeAdmissible e s 0 m2 :=
  ⟨hmem, ht4, hpack.2, h1, h2, hpack.1⟩

/-- Coverage: for every mode of the catalog and every `s ≤ 40` above the
mode\x27s minimum SNR, some admissible mode of at least the same bit rate
exists (the step structure of the catalog: each SNR window reaches into the
window of a faster mode, up to QAM256 / SOQPSK-40M whose windows end at
40 dB). -/
theorem coverage (e : Bool) (m : Nat) (s : ℚ) (hm : m ∈ recommend_mode_list)
    (ht4 : is_tier4_mode m = true → e = true)
    (hmin : (get_thresholds m).snr_min_dB ≤ s) (h40 : s ≤ 40) :
    ∃ m2, (m2 ∈ recommend_mode_list ∧ modeAdmissible e s 0 m2) ∧
      mode_bit_rate m ≤ mode_bit_rate m2 := by
  have hm2 : m ∈ ([19, 18, 17, 16, 15, 10, 9, 14, 13, 12, 11, 8, 7, 3, 6, 2, 5, 1, 4,
      0] : List Nat) := hm
  fin_cases hm2
  · -- mode 19
    have he : e = true := ht4 (by decide)
    exact ⟨19, cover_of e s 19 (by decide) (fun _ => he) (mode_pack _ (by decide)) hmin h40, by decide⟩
  · -- mode 18
    have he : e = true := ht4 (by decide)
    rcases le_or_lt s 36 with hb1 | hb1
    · exact ⟨18, cover_of e s 18 (by decide) (fun _ => he) (mode_pack _ (by decide)) hmin hb1, by decide⟩
    · exact ⟨19, cover_of e s 19 (by decide) (fun _ => he) (mode_pack _ (by decide)) (by show (26:ℚ) ≤ s; linarith) h40, by decide⟩
  · -- mode 17
    have he : e = true := ht4 (by decide)
    rcases le_or_lt s 33 with hb1 | hb1
    · exact ⟨17, cover_of e s 17 (by decide) (fun _ => he) (mode_pack _ (by decide)) hmin hb1, by decide⟩
    · exact ⟨19, cover_of e s 19 (by decide) (fun _ => he) (mode_pack _ (by decide)) (by show (26:ℚ) ≤ s; linarith) h40, by decide⟩
  · -- mode 16
    have he : e = true := ht4 (by decide)
    rcases le_or_lt s 30 with hb1 | hb1
    · exact ⟨16, cover_of e s 16 (by decide) (fun _ => he) (mode_pack _ (by decide)) hmin hb1, by decide⟩
    · rcases le_or_lt s 33 with hb2 | hb2
      · exact ⟨17, cover_of e s 17 (by decide) (fun _ => he) (mode_pack _ (by decide)) (by show (18:ℚ) ≤ s; linarith) hb2, by decide⟩
      · exact ⟨19, cover_of e s 19 (by decide) (fun _ => he) (mode_pack _ (by decide)) (by show (26:ℚ) ≤ s; linarith) h40, by decide⟩
  · -- mode 15
    have he : e = true := ht4 (by decide)
    rcases le_or_lt s 25 with hb1 | hb1
    · exact ⟨15, cover_of e s 15 (by decide) (fun _ => he) (mode_pack _ (by decide)) hmin hb1, by decide⟩
    · rcases le_or_lt s 30 with hb2 | hb2
      · exact ⟨16, cover_of e s 16 (by decide) (fun _ => he) (mode_pack _ (by decide)) (by show (15:ℚ) ≤ s; linarith) hb2, by decide⟩
      · rcases le_or_lt s 33 with hb3 | hb3
        · exact ⟨17, cover_of e s 17 (by decide) (fun _ => he) (mode_pack _ (by decide)) (by show (18:ℚ) ≤ s; linarith) hb3, by decide⟩
        · exact ⟨19, cover_of e s 19 (by decide) (fun _ => he) (mode_pack _ (by decide)) (by show (26:ℚ) ≤ s; linarith) h40, by decide⟩
  · -- mode 10
    exact ⟨10, cover_of e s 10 (by decide) (fun hh => absurd hh (by decide)) (mode_pack _ (by decide)) hmin h40, by decide⟩
  · -- mode 9
    rcases le_or_lt s 35 with hb1 | hb1
    · exact ⟨9, cover_of e s 9 (by decide) (fun hh => absurd hh (by decide)) (mode_pack _ (by decide)) hmin hb1, by decide⟩
    · exact ⟨10, cover_of e s 10 (by decide) (fun hh => absurd hh (by decide)) (mode_pack _ (by decide)) (by show (28:ℚ) ≤ s; linarith) h40, by decide⟩
  · -- mode 14
    rcases le_or_lt s 30 with hb1 | hb1
    · exact ⟨14, cover_of e s 14 (by decide) (fun hh => absurd hh (by decide)) (mode_pack _ (by decide)) hmin hb1, by decide⟩
    · rcases le_or_lt s 35 with hb2 | hb2
      · exact ⟨9, cover_of e s 9 (by decide) (fun hh => absurd hh (by decide)) (mode_pack _ (by decide)) (by show (22:ℚ) ≤ s; linarith) hb2, by decide⟩
      · exact ⟨10, cover_of e s 10 (by decide) (fun hh => absurd hh (by decide)) (mode_pack _ (by decide)) (by show (28:ℚ) ≤ s; linarith) h40, by decide⟩
  · -- mode 13
    rcases le_or_lt s 28 with hb1 | hb1
    · exact ⟨13, cover_of e s 13 (by decide) (fun hh => absurd hh (by decide)) (mode_pack _ (by decide)) hmin hb1, by decide⟩
    · rcases le_or_lt s 35 with hb2 | hb2
      · exact ⟨9, cover_of e s 9 (by decide) (fun hh => absurd hh (by decide)) (mode_pack _ (by decide)) (by show (22:ℚ) ≤ s; linarith) hb2, by decide⟩
      · exact ⟨10, cover_of e s 10 (by decide) (fun hh => absurd hh (by decide)) (mode_pack _ (by decide)) (by show (28:ℚ) ≤ s; linarith) h40, by decide⟩
  · -- mode 12
    rcases le_or_lt s 24 with hb1 | hb1
    · exact ⟨12, cover_of e s 12 (by decide) (fun hh => absurd hh (by decide)) (mode_pack _ (by decide)) hmin hb1, by decide⟩
    · rcases le_or_lt s 35 with hb2 | hb2
      · exact ⟨9, cover_of e s 9 (by decide) (fun hh => absurd hh (by decide)) (mode_pack _ (by decide)) (by show (22:ℚ) ≤ s; linarith) hb2, by decide⟩
      · exact ⟨10, cover_of e s 10 (by decide) (fun hh => absurd hh (by decide)) (mode_pack _ (by decide)) (by show (28:ℚ) ≤ s; linarith) h40, by decide⟩
  · -- mode 11
    rcases le_or_lt s 20 with hb1 | hb1
    · exact ⟨11, cover_of e s 11 (by decide) (fun hh => absurd hh (by decide)) (mode_pack _ (by decide)) hmin hb1, by decide⟩
    · rcases le_or_lt s 24 with hb2 | hb2
      · exact ⟨12, cover_of e s 12 (by decide) (fun hh => absurd hh (by decide)) (mode_pack _ (by decide)) (by show (12:ℚ) ≤ s; linarith) hb2, by decide⟩
      · rcases le_or_lt s 35 with hb3 | hb3
        · exact ⟨9, cover_of e s 9 (by decide) (fun hh => absurd hh (by decide)) (mode_pack _ (by decide)) (by show (22:ℚ) ≤ s; linarith) hb3, by decide⟩
        · exact ⟨10, cover_of e s 10 (by decide) (fun hh => absurd hh (by decide)) (mode_pack _ (by decide)) (by show (28:ℚ) ≤ s; linarith) h40, by decide⟩
  · -- mode 8
    rcases le_or_lt s 32 with hb1 | hb1
    · exact ⟨8, cover_of e s 8 (by decide) (fun hh => absurd hh (by decide)) (mode_pack _ (by decide)) hmin hb1, by decide⟩
    · rcases le_or_lt s 35 with hb2 | hb2
      · exact ⟨9, cover_of e s 9 (by decide) (fun hh => absurd hh (by decide)) (mode_pack _ (by decide)) (by show (22:ℚ) ≤ s; linarith) hb2, by decide⟩
      · exact ⟨10, cover_of e s 10 (by decide) (fun hh => absurd hh (by decide)) (mode_pack _ (by decide)) (by show (28:ℚ) ≤ s; linarith) h40, by decide⟩
  · -- mode 7
    rcases le_or_lt s 28 with hb1 | hb1
    · exact ⟨7, cover_of e s 7 (by decide) (fun hh => absurd hh (by decide)) (mode_pack _ (by decide)) hmin hb1, by decide⟩
    · rcases le_or_lt s 35 with hb2 | hb2
      · exact ⟨9, cover_of e s 9 (by decide) (fun hh => absurd hh (by decide)) (mode_pack _ (by decide)) (by show (22:ℚ) ≤ s; linarith) hb2, by decide⟩
      · exact ⟨10, cover_of e s 10 (by decide) (fun hh => absurd hh (by decide)) (mode_pack _ (by decide)) (by show (28:ℚ) ≤ s; linarith) h40, by decide⟩
  · -- mode 3
    rcases le_or_lt s 30 with hb1 | hb1
    · exact ⟨3, cover_of e s 3 (by decide) (fun hh => absurd hh (by decide)) (mode_pack _ (by decide)) hmin hb1, by decide⟩
    · rcases le_or_lt s 35 with hb2 | hb2
      · exact ⟨9, cover_of e s 9 (by decide) (fun hh => absurd hh (by decide)) (mode_pack _ (by decide)) (by show (22:ℚ) ≤ s; linarith) hb2, by decide⟩
      · exact ⟨10, cover_of e s 10 (by decide) (fun hh => absurd hh (by decide)) (mode_pack _ (by decide)) (by show (28:ℚ) ≤ s; linarith) h40, by decide⟩
  · -- mode 6
    rcases le_or_lt s 26 with hb1 | hb1
    · exact ⟨6, cover_of e s 6 (by decide) (fun hh => absurd hh (by decide)) (mode_pack _ (by decide)) hmin hb1, by decide⟩
    · rcases le_or_lt s 35 with hb2 | hb2
      · exact ⟨9, cover_of e s 9 (by decide) (fun hh => absurd hh (by decide)) (mode_pack _ (by decide)) (by show (22:ℚ) ≤ s; linarith) hb2, by decide⟩
      · exact ⟨10, cover_of e s 10 (by decide) (fun hh => absurd hh (by decide)) (mode_pack _ (by decide)) (by show (28:ℚ) ≤ s; linarith) h40, by decide⟩
  · -- mode 2
    rcases le_or_lt s 25 with hb1 | hb1
    · exact ⟨2, cover_of e s 2 (by decide) (fun hh => absurd hh (by decide)) (mode_pack _ (by decide)) hmin hb1, by decide⟩
    · rcases le_or_lt s 35 with hb2 | hb2
      · exact ⟨9, cover_of e s 9 (by decide) (fun hh => absurd hh (by decide)) (mode_pack _ (by decide)) (by show (22:ℚ) ≤ s; linarith) hb2, by decide⟩
      · exact ⟨10, cover_of e s 10 (by decide) (fun hh => absurd hh (by decide)) (mode_pack _ (by decide)) (by show (28:ℚ) ≤ s; linarith) h40, by decide⟩
  · -- mode 5
    rcases le_or_lt s 22 with hb1 | hb1
    · exact ⟨5, cover_of e s 5 (by decide) (fun hh => absurd hh (by decide)) (mode_pack _ (by decide)) hmin hb1, by decide⟩
    · rcases le_or_lt s 35 with hb2 | hb2
      · exact ⟨9, cover_of e s 9 (by decide) (fun hh => absurd hh (by decide)) (mode_pack _ (by decide)) (by show (22:ℚ) ≤ s; linarith) hb2, by decide⟩
      · exact ⟨10, cover_of e s 10 (by decide) (fun hh => absurd hh (by decide)) (mode_pack _ (by decide)) (by show (28:ℚ) ≤ s; linarith) h40, by decide⟩
  · -- mode 1
    rcases le_or_lt s 20 with hb1 | hb1
    · exact ⟨1, cover_of e s 1 (by decide) (fun hh => absurd hh (by decide)) (mode_pack _ (by decide)) hmin hb1, by decide⟩
    · rcases le_or_lt s 32 with hb2 | hb2
      · exact ⟨8, cover_of e s 8 (by decide) (fun hh => absurd hh (by decide)) (mode_pack _ (by decide)) (by show (20:ℚ) ≤ s; linarith) hb2, by decide⟩
      · rcases le_or_lt s 35 with hb3 | hb3
        · exact ⟨9, cover_of e s 9 (by decide) (fun hh => absurd hh (by decide)) (mode_pack _ (by decide)) (by show (22:ℚ) ≤ s; linarith) hb3, by decide⟩
        · exact ⟨10, cover_of e s 10 (by decide) (fun hh => absurd hh (by decide)) (mode_pack _ (by decide)) (by show (28:ℚ) ≤ s; linarith) h40, by decide⟩
  · -- mode 4
    rcases le_or_lt s 18 with hb1 | hb1
    · exact ⟨4, cover_of e s 4 (by decide) (fun hh => absurd hh (by decide)) (mode_pack _ (by decide)) hmin hb1, by decide⟩
    · rcases le_or_lt s 30 with hb2 | hb2
      · exact ⟨14, cover_of e s 14 (by decide) (fun hh => absurd hh (by decide)) (mode_pack _ (by decide)) (by show (18:ℚ) ≤ s; linarith) hb2, by decide⟩
      · rcases le_or_lt s 35 with hb3 | hb3
        · exact ⟨9, cover_of e s 9 (by decide) (fun hh => absurd hh (by decide)) (mode_pack _ (by decide)) (by show (22:ℚ) ≤ s; linarith) hb3, by decide⟩
        · exact ⟨10, cover_of e s 10 (by decide) (fun hh => absurd hh (by decide)) (mode_pack _ (by decide)) (by show (28:ℚ) ≤ s; linarith) h40, by decide⟩
  · -- mode 0
    rcases le_or_lt s 15 with hb1 | hb1
    · exact ⟨0, cover_of e s 0 (by decide) (fun hh => absurd hh (by decide)) (mode_pack _ (by decide)) hmin hb1, by decide⟩
    · rcases le_or_lt s 26 with hb2 | hb2
      · exact ⟨6, cover_of e s 6 (by decide) (fun hh => absurd hh (by decide)) (mode_pack _ (by decide)) (by show (14:ℚ) ≤ s; linarith) hb2, by decide⟩
      · rcases le_or_lt s 35 with hb3 | hb3
        · exact ⟨9, cover_of e s 9 (by decide) (fun hh => absurd hh (by decide)) (mode_pack _ (by decide)) (by show (22:ℚ) ≤ s; linarith) hb3, by decide⟩
        · exact ⟨10, cover_of e s 10 (by decide) (fun hh => absurd hh (by decide)) (mode_pack _ (by decide)) (by show (28:ℚ) ≤ s; linarith) h40, by decide⟩


/-- C6 (corrected: the spec claims monotonicity for all snr, but above
40 dB no threshold window matches and the recommendation falls back to
2FSK; it holds whenever the larger SNR stays at or below 40 dB): with
ber fixed at 0 and s1 ≤ s2 ≤ 40, the bit rate of `recommend_mode` at s2
is at least the bit rate at s1. -/
theorem C6_monotone_below_40 (e : Bool) (s1 s2 : ℚ) (h12 : s1 ≤ s2) (h40 : s2 ≤ 40) :
    mode_bit_rate (recommend_mode e s1 0) ≤ mode_bit_rate (recommend_mode e s2 0) := by
  unfold recommend_mode
  rcases recommendFold_result e s1 0 recommend_mode_list (MODE_2FSK, 0) with
    hf1 | ⟨hm1, ha1, hr1⟩
  · rw [hf1]
    rcases recommendFold_result e s2 0 recommend_mode_list (MODE_2FSK, 0) with
      hf2 | ⟨hm2, _, _⟩
    · rw [hf2]
    · exact le_trans (by decide : mode_bit_rate (MODE_2FSK, 0).1 ≤ 1200)
        ((catalog_facts _ hm2).1)
  · obtain ⟨m2, ⟨hm2mem, hadm2⟩, hge⟩ :=
      coverage e (recommend_mode_list.foldl (recommendStep e s1 0) (MODE_2FSK, 0)).1 s2
        hm1 ha1.1 (le_trans ha1.2.2.1 h12) h40
    have hach := recommendFold_achieves e s2 0 recommend_mode_list (MODE_2FSK, 0) m2
      hm2mem hadm2
    have h1200 : 1200 ≤ (d_mode_data_rates m2).getD 0 := by
      have hc := catalog_facts m2 hm2mem
      rw [← hc.2.2]
      exact hc.1
    rcases recommendFold_result e s2 0 recommend_mode_list (MODE_2FSK, 0) with
      hf2 | ⟨hm2f, _, hr2⟩
    · rw [hf2] at hach
      exact absurd (le_trans h1200 hach) (by decide)
    · calc mode_bit_rate (recommend_mode_list.foldl (recommendStep e s1 0) (MODE_2FSK, 0)).1
          ≤ mode_bit_rate m2 := hge
        _ = (d_mode_data_rates m2).getD 0 := (catalog_facts _ hm2mem).2.2
        _ ≤ (recommend_mode_list.foldl (recommendStep e s2 0) (MODE_2FSK, 0)).2 := hach
        _ = (d_mode_data_rates
              (recommend_mode_list.foldl (recommendStep e s2 0) (MODE_2FSK, 0)).1).getD 0 :=
          hr2
        _ = mode_bit_rate
              (recommend_mode_list.foldl (recommendStep e s2 0) (MODE_2FSK, 0)).1 :=
          ((catalog_facts _ hm2f).2.2).symm

/-- Witness for C6 at `e = false, s1 = 10, s2 = 20`. -/
theorem C6_monotone_below_40_witness :
    (10:ℚ) ≤ 20 ∧ (20:ℚ) ≤ 40 ∧
      mode_bit_rate (recommend_mode false 10 0) ≤ mode_bit_rate (recommend_mode false 20 0) :=
  ⟨by norm_num, by norm_num, C6_monotone_below_40 false 10 20 (by norm_num) (by norm_num)⟩

/-- Counterexample to the unrestricted claim: 30 ≤ 41 but the bit rate
recommended at 41 dB (2FSK fallback, 1200 bps) is below the one at
30 dB. -/
theorem C6_counterexample :
    (30:ℚ) ≤ 41 ∧
      mode_bit_rate (recommend_mode false 41 0) < mode_bit_rate (recommend_mode false 30 0) := by
  constructor
  · norm_num
  · decide!

end PacketProtocols

